import Mathlib

/-!
Verification of the chess-helper core: a shallow embedding of the Python
sources `engine.py`, `game_tracker.py` and `config.py`.

Modelling conventions:
- Python floats are modelled as exact rationals (`ℚ`); the claims under
  study are about the arithmetic formulas, not float rounding.
- The rules engine (python-chess) is an external dependency, not repository
  code; the parts the repository relies on are modelled as an abstract
  `ChessRules` capability: `Board.push` records the pre-move state on an
  internal stack and `Board.pop` restores it, exactly as python-chess does.
- A Python method that can raise, or that can return `None`, is embedded
  with `Option`; a method that mutates `self.stockfish` is embedded by
  returning the new `ChessEngine` alongside its result.
- Python `if`/`elif` ladders are embedded as nested `if`/`else`.
-/

/-- Raw score reported by the stockfish library's `get_evaluation`:
either a centipawn score (`type = hyphen cp`) or a forced-mate score
(`type = mate`, value positive when the side favoured is the engine's
side to move perspective, negative for the opponent). -/
inductive RawScore where
  | cp (value : ℤ)
  | mate (value : ℤ)
deriving DecidableEq, Repr

/-- The pure normalization inside `ChessEngine.get_evaluation`
(src/engine.py lines 84-92): a centipawn value divides by 100 into pawn
units; a mate value m maps to `999 - m` when `m > 0` and `-999 - m`
otherwise. -/
def normalizeScore : RawScore → ℚ
  | .cp v => (v : ℚ) / 100
  | .mate m => if 0 < m then 999 - (m : ℚ) else -999 - (m : ℚ)

/-- Model of a live stockfish handle (the `self.stockfish` object).
Each request field returns `none` to model a raised exception; the engine
adapter catches it and marks itself crashed.  `fenValidOk` says whether
the `is_fen_valid` probe in `is_available` succeeds. -/
structure Stockfish where
  fenValidOk : Bool
  evalResult : String → Option RawScore
  bestMoveResult : String → Option (Option String)
  topMovesResult : String → Nat → Option (List (String × Option ℤ × Option ℤ))

/-- `ChessEngine` adapter state: `stockfish = none` is the crashed /
uninitialized state (src/engine.py line 20, lines 41, 64, 97, 156). -/
structure ChessEngine where
  stockfish : Option Stockfish

/-- `ChessEngine.is_available` (src/engine.py lines 29-42): false when the
handle is gone; otherwise probes the handle, and on probe failure clears
the handle and returns false.  Returns the possibly-updated engine. -/
def ChessEngine.is_available : ChessEngine → ChessEngine × Bool
  | ⟨none⟩ => (⟨none⟩, false)
  | ⟨some h⟩ => if h.fenValidOk then (⟨some h⟩, true) else (⟨none⟩, false)

/-- `ChessEngine.get_evaluation` (src/engine.py lines 67-98): `none` when
unavailable; on request failure the handle is cleared and `none` returned;
otherwise the raw score is normalized by the lines embedded in
`normalizeScore`. -/
def ChessEngine.get_evaluation (e : ChessEngine) (fen : String) :
    ChessEngine × Option ℚ :=
  let pr := e.is_available
  if pr.2 then
    match pr.1.stockfish with
    | none => (pr.1, none)
    | some h =>
      match h.evalResult fen with
      | none => (⟨none⟩, none)
      | some raw => (pr.1, some (normalizeScore raw))
  else (pr.1, none)

/-- `ChessEngine.get_best_move` (src/engine.py lines 44-65). -/
def ChessEngine.get_best_move (e : ChessEngine) (fen : String) :
    ChessEngine × Option String :=
  let pr := e.is_available
  if pr.2 then
    match pr.1.stockfish with
    | none => (pr.1, none)
    | some h =>
      match h.bestMoveResult fen with
      | none => (⟨none⟩, none)
      | some best => (pr.1, best)
  else (pr.1, none)

/-- `ChessEngine.get_top_moves` (src/engine.py lines 124-157): empty list
when unavailable or on request failure; otherwise each raw entry
`(Move, Centipawn, Mate)` becomes a record whose evaluation is
`Centipawn / 100` when the centipawn field is present. -/
def ChessEngine.get_top_moves (e : ChessEngine) (fen : String)
    (numMoves : Nat) : ChessEngine × List (String × Option ℚ × Option ℤ) :=
  let pr := e.is_available
  if pr.2 then
    match pr.1.stockfish with
    | none => (pr.1, [])
    | some h =>
      match h.topMovesResult fen numMoves with
      | none => (⟨none⟩, [])
      | some tops =>
        (pr.1, tops.map (fun mi =>
          (mi.1, (mi.2.1).map (fun c => (c : ℚ) / 100), mi.2.2)))
  else (pr.1, [])

/-- Move-quality tiers of the analyzer. `good` leaves every counter
unchanged (the `pass` branch). -/
inductive Tier where
  | excellent | good | inaccuracy | mistake | blunder
deriving DecidableEq, Repr

/-- The tier ladder of `analyze_game_quality`
(src/game_tracker.py lines 221-230), a pure function of the loss. -/
def classifyLoss (loss : ℚ) : Tier :=
  if loss ≤ -2 then .excellent
  else if loss ≤ 1/2 then .good
  else if loss ≤ 1 then .inaccuracy
  else if loss ≤ 2 then .mistake
  else .blunder

/-- Abstract capability for the external rules engine (python-chess),
consumed by `GameTracker`.  `parseSan` returns `none` when parsing raises
`ValueError`; `isLegal` is membership in `board.legal_moves`; `apply`
is `Board.push`'s position update; `fen` and `san` are notation exports. -/
structure ChessRules (P M : Type) where
  init : P
  apply : P → M → P
  parseSan : P → String → Option M
  isLegal : P → M → Bool
  fen : P → String
  san : P → M → String

/-- A python-chess `Board`: the current position plus the internal undo
stack; `push` records `(move, previous position)` and `pop` restores the
recorded previous position, as python-chess's `_stack` of board states
does. -/
structure Board (P M : Type) where
  pos : P
  stack : List (M × P)
deriving DecidableEq, Repr

/-- `Board.push` (python-chess): saves the current state, applies the move. -/
def Board.push (R : ChessRules P M) (b : Board P M) (m : M) : Board P M :=
  { pos := R.apply b.pos m, stack := (m, b.pos) :: b.stack }

/-- `GameTracker` state (src/game_tracker.py lines 11-15): a board plus the
`move_history` list (appended at the tail, popped from the tail). -/
structure GameTracker (P M : Type) where
  board : Board P M
  history : List M
deriving DecidableEq, Repr

/-- A freshly constructed `GameTracker`: initial board, empty history. -/
def initTracker (R : ChessRules P M) : GameTracker P M :=
  { board := { pos := R.init, stack := [] }, history := [] }

/-- `GameTracker.make_move` (src/game_tracker.py lines 19-44): parse the
SAN text (a raised `ValueError` yields `False` with no state change),
check legality (an illegal move yields `False` with no state change),
otherwise push the move and append it to the history. -/
def GameTracker.make_move (t : GameTracker P M) (R : ChessRules P M)
    (s : String) : GameTracker P M × Bool :=
  match R.parseSan t.board.pos s with
  | none => (t, false)
  | some m =>
    if R.isLegal t.board.pos m then
      ({ board := t.board.push R m, history := t.history ++ [m] }, true)
    else (t, false)

/-- `GameTracker.undo_move` (src/game_tracker.py lines 69-80): when the
history is non-empty, `board.pop()` restores the recorded previous board
state and the last history entry is removed; on an empty history nothing
changes and `False` is returned.  (The inner empty-stack branch is
unreachable from reachable states, where board stack and history have
equal length.) -/
def GameTracker.undo_move (t : GameTracker P M) : GameTracker P M × Bool :=
  match t.history with
  | [] => (t, false)
  | _ :: _ =>
    match t.board.stack with
    | [] => (t, false)
    | (_, p) :: rest =>
      ({ board := { pos := p, stack := rest }, history := t.history.dropLast },
       true)

/-- Apply a list of SAN move texts in order with `make_move`, stopping at
the first failure; the flag is `true` exactly when every move succeeded. -/
def applyAll (R : ChessRules P M) (t : GameTracker P M) :
    List String → GameTracker P M × Bool
  | [] => (t, true)
  | s :: ss =>
    let r := t.make_move R s
    if r.2 then applyAll R r.1 ss else (r.1, false)

/-- Call `undo_move` n times (undoing the n most recent moves); the flag
is `true` exactly when every undo reported success. -/
def undoN (t : GameTracker P M) : Nat → GameTracker P M × Bool
  | 0 => (t, true)
  | n + 1 =>
    let r := undoN t n
    let r2 := r.1.undo_move
    (r2.1, r.2 && r2.2)

/-- Outcome of `analyze_game_quality`: the engine-unavailable error dict,
an uncaught Python exception (`crash`), or the analysis dict
`(total_moves, blunders, mistakes, inaccuracies, excellent_moves,
average_centipawn_loss)`. -/
inductive QualityResult where
  | engineUnavailable
  | crash
  | report (totalMoves blunders mistakes inaccuracies excellentMoves : Nat)
      (averageCentipawnLoss : ℚ)
deriving DecidableEq, Repr

/-- Counter increments `(blunders, mistakes, inaccuracies, excellent)` of
one classified move (src/game_tracker.py lines 220-230). -/
def tierCounts : Tier → Nat × Nat × Nat × Nat
  | .excellent => (0, 0, 0, 1)
  | .good => (0, 0, 0, 0)
  | .inaccuracy => (0, 0, 1, 0)
  | .mistake => (0, 1, 0, 0)
  | .blunder => (1, 0, 0, 0)

/-- `GameTracker.analyze_game_quality` (src/game_tracker.py lines 173-235),
embedded with the control flow Python actually executes: the `for` loop
body consists only of the `move_obj` assignment (lines 192-195; the rest
of the per-move code, lines 197-230, is indented at the loop's own level
and therefore runs once, after the loop).  Hence: with an empty history
`move_obj` is never bound and line 201 raises `UnboundLocalError`
(`crash`); otherwise `move_obj` is the last history entry, `pos_before`
is the initial position (the temp board is never pushed inside the loop),
`pos_after` is the initial position with the last move pushed, and a
single loss is computed.  After one push from the initial position the
side to move is always Black, so the `White just moved` branch
`loss = eval_before - eval_after` is always taken. -/
def GameTracker.analyze_game_quality (t : GameTracker P M)
    (R : ChessRules P M) (e : ChessEngine) : ChessEngine × QualityResult :=
  let pr := e.is_available
  if pr.2 then
    match t.history.getLast? with
    | none => (pr.1, .crash)
    | some moveObj =>
      let posBefore := R.init
      let posAfter := R.apply R.init moveObj
      let r1 := pr.1.get_evaluation (R.fen posBefore)
      let r2 := r1.1.get_evaluation (R.fen posAfter)
      match r1.2, r2.2 with
      | some evalBefore, some evalAfter =>
        let loss := evalBefore - evalAfter
        let c := tierCounts (classifyLoss loss)
        (r2.1, .report t.history.length c.1 c.2.1 c.2.2.1 c.2.2.2 |loss|)
      | _, _ => (r2.1, .report t.history.length 0 0 0 0 0)
  else (pr.1, .engineUnavailable)

/-- `GameTracker.get_move_history_san` (src/game_tracker.py lines 125-133):
replay from the initial position, printing each move in SAN. -/
def GameTracker.get_move_history_san (t : GameTracker P M)
    (R : ChessRules P M) : List String :=
  (t.history.foldl
    (fun acc m => (acc.1 ++ [R.san acc.2 m], R.apply acc.2 m))
    (([] : List String), R.init)).1

/-- Python `f"\x7bn:2d\x7d"`: decimal, right-aligned in width 2. -/
def padNum2 (n : Nat) : String :=
  let s := toString n
  if s.length < 2 then " " ++ s else s

/-- Python `f"\x7bs:<10s\x7d"`: left-aligned, padded to width 10. -/
def padLeft10 (s : String) : String :=
  s ++ String.mk (List.replicate (10 - s.length) ' ')

/-- `GameTracker._format_move_history_for_report`
(src/game_tracker.py lines 350-365), embedded with the control flow
Python actually executes: the `for` loop body is only lines 356-358
(the `if black_move` block at lines 360-363 sits at the loop's own
indentation and runs once, after the loop).  With an empty history the
loop never binds `black_move` and line 360 raises `NameError` (`none`);
otherwise exactly one line — for the last loop index — is appended. -/
def GameTracker.formatMoveHistoryForReport (t : GameTracker P M)
    (R : ChessRules P M) : Option (List String) :=
  let history := t.get_move_history_san R
  match history with
  | [] => none
  | _ :: _ =>
    let i := 2 * ((history.length - 1) / 2)
    let moveNum := i / 2 + 1
    let whiteMove := history.getD i ""
    let blackMove := if i + 1 < history.length then history.getD (i + 1) "" else ""
    if blackMove ≠ "" then
      some [padNum2 moveNum ++ ". " ++ padLeft10 whiteMove ++ " " ++ blackMove]
    else
      some [padNum2 moveNum ++ ". " ++ whiteMove]

/-- `AutoSave.check_auto_save` (src/config.py lines 185-196), as a
transition on `last_save_move_count`: returns the new recorded count and
whether a save fired.  `enabled` is the `auto_save` config flag,
`moveCount` the current history length, `interval` the configured
`auto_save_interval` (positive: Python `%` by zero would raise). -/
def check_auto_save (enabled : Bool) (interval : Nat) (moveCount : Nat)
    (lastSaveMoveCount : Nat) : Nat × Bool :=
  if !enabled then (lastSaveMoveCount, false)
  else if moveCount > 0 && moveCount % interval == 0 then
    if moveCount != lastSaveMoveCount then (moveCount, true)
    else (lastSaveMoveCount, false)
  else (lastSaveMoveCount, false)

/-- Concrete rules instance used for evaluation witnesses: positions and
moves are numbers, `apply` is injective on histories, SAN text is the
numeral, the move texts `a`, `b`, `c` parse to the legal moves 1, 2, 3,
the text `z` parses to the illegal move 15, anything else fails to
parse. -/
def demoRules : ChessRules Nat Nat :=
  { init := 0
    apply := fun p m => 10 * p + m + 1
    parseSan := fun _ s =>
      if s = "a" then some 1
      else if s = "b" then some 2
      else if s = "c" then some 3
      else if s = "z" then some 15
      else none
    isLegal := fun _ m => m < 10
    fen := fun p => Nat.repr p
    san := fun _ m => Nat.repr m }

/-- A responsive stockfish handle whose evaluation depends on the FEN:
the initial position `0` evaluates to 0 centipawns, position `3`
(initial plus the move 2) to 300, everything else to 1000. -/
def demoStockfish : Stockfish :=
  { fenValidOk := true
    evalResult := fun s =>
      if s = "0" then some (.cp 0)
      else if s = "3" then some (.cp 300)
      else some (.cp 1000)
    bestMoveResult := fun _ => some none
    topMovesResult := fun _ _ => some [] }

/-- A live engine adapter wrapping `demoStockfish`. -/
def demoEngine : ChessEngine := ⟨some demoStockfish⟩

/-- The engine adapter in the crashed state (`self.stockfish = None`). -/
def crashedEngine : ChessEngine := ⟨none⟩

/-- A responsive handle that always reports a 250 centipawn score. -/
def stockfishCp : Stockfish :=
  { fenValidOk := true
    evalResult := fun _ => some (.cp 250)
    bestMoveResult := fun _ => some none
    topMovesResult := fun _ _ => some [] }

/-- A responsive handle that always reports mate in 3 for the engine. -/
def stockfishMate3 : Stockfish :=
  { fenValidOk := true
    evalResult := fun _ => some (.mate 3)
    bestMoveResult := fun _ => some none
    topMovesResult := fun _ _ => some [] }

/-- A responsive handle that always reports mate in 3 for the opponent. -/
def stockfishMateOpp3 : Stockfish :=
  { fenValidOk := true
    evalResult := fun _ => some (.mate (-3))
    bestMoveResult := fun _ => some none
    topMovesResult := fun _ _ => some [] }

/-- C2: for every raw engine score, `get_evaluation` returns value/100
pawns for a centipawn score; for a forced mate with signed raw value N
(positive when the mate favours the engine's side, negative when it
favours the opponent) it returns `999 - N` (positive) respectively
`-999 - N` (negative). -/
theorem evaluate_normalization (h : Stockfish) (fen : String) (v m : ℤ)
    (hfen : h.fenValidOk = true) :
    (h.evalResult fen = some (RawScore.cp v) →
      (ChessEngine.get_evaluation ⟨some h⟩ fen).2 = some ((v : ℚ) / 100)) ∧
    (h.evalResult fen = some (RawScore.mate m) → 0 < m →
      (ChessEngine.get_evaluation ⟨some h⟩ fen).2 = some (999 - (m : ℚ))) ∧
    (h.evalResult fen = some (RawScore.mate m) → m < 0 →
      (ChessEngine.get_evaluation ⟨some h⟩ fen).2 = some (-999 - (m : ℚ))) := by
  refine ⟨fun hres => ?_, fun hres hm => ?_, fun hres hm => ?_⟩ <;>
    simp [ChessEngine.get_evaluation, ChessEngine.is_available, hfen, hres,
      normalizeScore]
  · simp [hm]
  · simp [lt_asymm hm]

/-- Witness for C2 at concrete scores: 250 centipawns, mate 3 for the
engine's side, mate 3 for the opponent. -/
theorem evaluate_normalization_witness :
    (ChessEngine.get_evaluation ⟨some stockfishCp⟩ "q").2 =
        some (((250 : ℤ) : ℚ) / 100) ∧
    (ChessEngine.get_evaluation ⟨some stockfishMate3⟩ "q").2 =
        some (999 - ((3 : ℤ) : ℚ)) ∧
    (ChessEngine.get_evaluation ⟨some stockfishMateOpp3⟩ "q").2 =
        some (-999 - ((-3 : ℤ) : ℚ)) :=
  ⟨(evaluate_normalization stockfishCp "q" 250 0 rfl).1 rfl,
   (evaluate_normalization stockfishMate3 "q" 0 3 rfl).2.1 rfl (by decide),
   (evaluate_normalization stockfishMateOpp3 "q" 0 (-3) rfl).2.2 rfl (by decide)⟩

/-- C5 counterexample: the claim quantifies over every finite positive
centipawn score, but a 99400-centipawn score normalizes to exactly 994,
the value of mate-in-5 for White, so mate-in-5 is not greater. -/
theorem normalization_monotonic_counterexample :
    ¬ normalizeScore (RawScore.cp 99400) < normalizeScore (RawScore.mate 5) := by
  norm_num [normalizeScore]

/-- C5 (amended): the normalization chain mate-in-1 White > mate-in-5
White > positive centipawn score > 0 > negative centipawn score >
mate-in-5 Black > mate-in-1 Black holds for centipawn scores of
magnitude below 99400 (mate scores are encoded with their signed raw
value: `mate 1` / `mate 5` favour White, `mate (-1)` / `mate (-5)`
favour Black). -/
theorem normalization_monotonic (v w : ℤ) (hv0 : 0 < v) (hv : v < 99400)
    (hw0 : w < 0) (hw : -99400 < w) :
    normalizeScore (RawScore.mate 5) < normalizeScore (RawScore.mate 1) ∧
    normalizeScore (RawScore.cp v) < normalizeScore (RawScore.mate 5) ∧
    0 < normalizeScore (RawScore.cp v) ∧
    normalizeScore (RawScore.cp w) < 0 ∧
    normalizeScore (RawScore.mate (-5)) < normalizeScore (RawScore.cp w) ∧
    normalizeScore (RawScore.mate (-1)) < normalizeScore (RawScore.mate (-5)) := by
  have hv0Q : (0 : ℚ) < (v : ℚ) := by exact_mod_cast hv0
  have hvQ : (v : ℚ) < 99400 := by exact_mod_cast hv
  have hw0Q : (w : ℚ) < 0 := by exact_mod_cast hw0
  have hwQ : (-99400 : ℚ) < (w : ℚ) := by exact_mod_cast hw
  refine ⟨by norm_num [normalizeScore], ?_, ?_, ?_, ?_,
    by norm_num [normalizeScore]⟩ <;> simp only [normalizeScore] <;> norm_num
  · linarith
  · linarith
  · linarith
  · linarith

/-- Witness for C5 (amended) at 30 centipawns for either side. -/
theorem normalization_monotonic_witness :
    normalizeScore (RawScore.mate 5) < normalizeScore (RawScore.mate 1) ∧
    normalizeScore (RawScore.cp 30) < normalizeScore (RawScore.mate 5) ∧
    0 < normalizeScore (RawScore.cp 30) ∧
    normalizeScore (RawScore.cp (-30)) < 0 ∧
    normalizeScore (RawScore.mate (-5)) < normalizeScore (RawScore.cp (-30)) ∧
    normalizeScore (RawScore.mate (-1)) < normalizeScore (RawScore.mate (-5)) :=
  normalization_monotonic 30 (-30) (by decide) (by decide) (by decide) (by decide)

/-- C6: the tier ladder is a pure function of the loss with exact
boundary inclusion: loss ≤ -2 is excellent, -2 < loss ≤ 1/2 is good,
1/2 < loss ≤ 1 is inaccuracy, 1 < loss ≤ 2 is mistake, loss > 2 is
blunder; the boundary values -2, 1/2, 1, 2 classify as excellent, good,
inaccuracy, mistake. -/
theorem tiering_pure_with_boundaries (loss : ℚ) :
    (classifyLoss loss = Tier.excellent ↔ loss ≤ -2) ∧
    (classifyLoss loss = Tier.good ↔ -2 < loss ∧ loss ≤ 1/2) ∧
    (classifyLoss loss = Tier.inaccuracy ↔ 1/2 < loss ∧ loss ≤ 1) ∧
    (classifyLoss loss = Tier.mistake ↔ 1 < loss ∧ loss ≤ 2) ∧
    (classifyLoss loss = Tier.blunder ↔ 2 < loss) ∧
    classifyLoss (-2) = Tier.excellent ∧ classifyLoss (1/2) = Tier.good ∧
    classifyLoss 1 = Tier.inaccuracy ∧ classifyLoss 2 = Tier.mistake := by
  refine ⟨?_, ?_, ?_, ?_, ?_, by norm_num [classifyLoss],
    by norm_num [classifyLoss], by norm_num [classifyLoss],
    by norm_num [classifyLoss]⟩ <;>
  · unfold classifyLoss
    split_ifs <;> simp_all <;>
      first
      | linarith
      | (intros; linarith)

/-- C7: with the engine session crashed (`stockfish = None`), every
adapter call is safe: `is_available` is false, `get_best_move` and
`get_evaluation` return `none`, `get_top_moves` returns `[]`, and
`analyze_game_quality` reports the engine-unavailable error; none of
them mutates further or raises. -/
theorem crashed_engine_all_safe (fen : String) (k : Nat) (P M : Type)
    (R : ChessRules P M) (t : GameTracker P M) :
    crashedEngine.is_available = (crashedEngine, false) ∧
    crashedEngine.get_best_move fen = (crashedEngine, none) ∧
    crashedEngine.get_evaluation fen = (crashedEngine, none) ∧
    crashedEngine.get_top_moves fen k = (crashedEngine, []) ∧
    (t.analyze_game_quality R crashedEngine).2 = QualityResult.engineUnavailable :=
  ⟨rfl, rfl, rfl, rfl, rfl⟩

/-- C8: failing ledger mutations are atomic: `make_move` with text that
does not parse, or that resolves to an illegal move, returns failure and
leaves the tracker (board and history, hence their lengths) unchanged;
`undo_move` on an empty history returns failure and changes nothing. -/
theorem failed_mutations_atomic {P M : Type} (R : ChessRules P M)
    (t : GameTracker P M) (s : String) :
    (R.parseSan t.board.pos s = none → t.make_move R s = (t, false)) ∧
    (∀ m, R.parseSan t.board.pos s = some m → R.isLegal t.board.pos m = false →
      t.make_move R s = (t, false)) ∧
    (t.history = [] → t.undo_move = (t, false)) :=
  ⟨fun h => by simp [GameTracker.make_move, h],
   fun m h1 h2 => by simp [GameTracker.make_move, h1, h2],
   fun h => by simp [GameTracker.undo_move, h]⟩

/-- Witness for C8: unparseable text, text resolving to an illegal move,
and undo on the fresh tracker, all on the demo rules. -/
theorem failed_mutations_atomic_witness :
    (initTracker demoRules).make_move demoRules "xx" =
      (initTracker demoRules, false) ∧
    (initTracker demoRules).make_move demoRules "z" =
      (initTracker demoRules, false) ∧
    (initTracker demoRules).undo_move = (initTracker demoRules, false) :=
  ⟨(failed_mutations_atomic demoRules (initTracker demoRules) "xx").1 rfl,
   (failed_mutations_atomic demoRules (initTracker demoRules) "z").2.1 15 rfl rfl,
   (failed_mutations_atomic demoRules (initTracker demoRules) "xx").2.2 rfl⟩

/-- A successful `make_move` produces exactly the pushed board and the
extended history. -/
theorem make_move_success {P M : Type} {R : ChessRules P M}
    {t t' : GameTracker P M} {s : String}
    (h : t.make_move R s = (t', true)) :
    ∃ m, t' = { board := t.board.push R m, history := t.history ++ [m] } := by
  unfold GameTracker.make_move at h
  cases hp : R.parseSan t.board.pos s with
  | none => rw [hp] at h; simp at h
  | some m =>
    rw [hp] at h
    by_cases hl : R.isLegal t.board.pos m = true
    · simp only [hl, if_true] at h
      first
      | exact ⟨m, h.1.symm⟩
      | exact ⟨m, ((Prod.mk.injEq _ _ _ _).mp h).1.symm⟩
    · simp [hl] at h

/-- Undoing a just-pushed move restores the exact previous tracker. -/
theorem undo_push {P M : Type} (R : ChessRules P M) (t : GameTracker P M)
    (m : M) :
    GameTracker.undo_move
      { board := t.board.push R m, history := t.history ++ [m] } = (t, true) := by
  rcases t with ⟨⟨pos, stack⟩, hist⟩
  cases hist with
  | nil => simp [GameTracker.undo_move, Board.push]
  | cons a l =>
    have hd : (a :: (l ++ [m])).dropLast = a :: l := by
      rw [show a :: (l ++ [m]) = (a :: l) ++ [m] from rfl, List.dropLast_concat]
    simp [GameTracker.undo_move, Board.push, hd]

/-- After a fully successful run of `make_move` calls, undoing as many
times restores the starting tracker, each undo succeeding. -/
theorem applyAll_undoN {P M : Type} (R : ChessRules P M) :
    ∀ (ss : List String) (t0 : GameTracker P M),
      (applyAll R t0 ss).2 = true →
      undoN (applyAll R t0 ss).1 ss.length = (t0, true) := by
  intro ss
  induction ss with
  | nil => intro t0 _; rfl
  | cons s ss ih =>
    intro t0 hok
    cases hmk : t0.make_move R s with
    | mk t1 ok =>
      cases ok with
      | false =>
        have happ : applyAll R t0 (s :: ss) = (t1, false) := by
          show (let r := t0.make_move R s
                if r.2 = true then applyAll R r.1 ss else (r.1, false)) =
              (t1, false)
          rw [hmk]
          rfl
        rw [happ] at hok
        simp at hok
      | true =>
        have happ : applyAll R t0 (s :: ss) = applyAll R t1 ss := by
          show (let r := t0.make_move R s
                if r.2 = true then applyAll R r.1 ss else (r.1, false)) =
              applyAll R t1 ss
          rw [hmk]
          rfl
        rw [happ] at hok ⊢
        have ih1 := ih t1 hok
        obtain ⟨m, hm⟩ := make_move_success hmk
        show (let r := undoN (applyAll R t1 ss).1 ss.length
              let r2 := r.1.undo_move
              (r2.1, r.2 && r2.2)) = (t0, true)
        rw [ih1]
        subst hm
        simp [undo_push R t0 m]

/-- C9: for every sequence of moves applied successfully from the fresh
tracker, undoing as many times succeeds each time and restores exactly
the initial board state and an empty move history. -/
theorem apply_undo_roundtrip {P M : Type} (R : ChessRules P M)
    (ss : List String)
    (hok : (applyAll R (initTracker R) ss).2 = true) :
    undoN (applyAll R (initTracker R) ss).1 ss.length = (initTracker R, true) :=
  applyAll_undoN R ss (initTracker R) hok

/-- Witness for C9: two demo moves applied and undone. -/
theorem apply_undo_roundtrip_witness :
    (applyAll demoRules (initTracker demoRules) ["a", "b"]).2 = true ∧
    undoN (applyAll demoRules (initTracker demoRules) ["a", "b"]).1 2 =
      (initTracker demoRules, true) :=
  ⟨by decide, apply_undo_roundtrip demoRules ["a", "b"] (by decide)⟩

/-- C3 failing input: `analyze_game_quality` on an empty move history
with an available engine reaches line 201 with `move_obj` never bound
and raises `UnboundLocalError` (modelled as the `crash` outcome) instead
of returning a result. -/
theorem analyze_empty_history_crashes :
    ((initTracker demoRules).analyze_game_quality demoRules demoEngine).2 =
      QualityResult.crash := rfl

/-- C1 failing input: after the two moves `a`, `b` with an available
engine, the executed code evaluates only the initial position (value 0)
and the initial position with the final move pushed (value 3), computes
the single loss `0 - 3 = -3` (one excellent move), and reports average
loss 3 — not the per-move scan of the claim, which would query four
positions and average two losses. -/
theorem analyze_uses_only_last_move :
    ((applyAll demoRules (initTracker demoRules) ["a", "b"]).1.analyze_game_quality
        demoRules demoEngine).2 =
      QualityResult.report 2 0 0 0 1 3 := by
  have h : ((applyAll demoRules (initTracker demoRules) ["a", "b"]).1.analyze_game_quality
      demoRules demoEngine).2 =
      QualityResult.report 2
        (tierCounts (classifyLoss (((0 : ℤ) : ℚ) / 100 - ((300 : ℤ) : ℚ) / 100))).1
        (tierCounts (classifyLoss (((0 : ℤ) : ℚ) / 100 - ((300 : ℤ) : ℚ) / 100))).2.1
        (tierCounts (classifyLoss (((0 : ℤ) : ℚ) / 100 - ((300 : ℤ) : ℚ) / 100))).2.2.1
        (tierCounts (classifyLoss (((0 : ℤ) : ℚ) / 100 - ((300 : ℤ) : ℚ) / 100))).2.2.2
        |((0 : ℤ) : ℚ) / 100 - ((300 : ℤ) : ℚ) / 100| := rfl
  rw [h]
  have hl : ((0 : ℤ) : ℚ) / 100 - ((300 : ℤ) : ℚ) / 100 = -3 := by norm_num
  rw [hl]
  have hc : classifyLoss (-3) = Tier.excellent := by
    unfold classifyLoss
    norm_num
  rw [hc]
  norm_num [tierCounts]

/-- C4 failing input: with the three-move history `a`, `b`, `c` (SAN
texts 1, 2, 3) the move-history section of the report is the single
line for the final loop index — the first full-move pair never appears,
so the report does not list the full move list. -/
theorem report_history_only_last_line :
    (applyAll demoRules (initTracker demoRules) ["a", "b", "c"]).1.formatMoveHistoryForReport
        demoRules = some [" 2. 3"] := by decide

/-- The firing condition of `check_auto_save`, in propositional form. -/
theorem check_auto_save_fire_iff (enabled : Bool) (interval c last : Nat) :
    ((check_auto_save enabled interval c last).2 = true ↔
      enabled = true ∧ 0 < c ∧ c % interval = 0 ∧ c ≠ last) := by
  unfold check_auto_save
  cases enabled <;> simp <;> split_ifs <;> simp_all

/-- A fired `check_auto_save` records the current move count. -/
theorem check_auto_save_fst_of_fire (enabled : Bool) (interval c last : Nat)
    (h : (check_auto_save enabled interval c last).2 = true) :
    (check_auto_save enabled interval c last).1 = c := by
  unfold check_auto_save at h ⊢
  cases enabled <;> simp_all <;> split_ifs at h ⊢ <;> simp_all

/-- C10: `check_auto_save` fires exactly when auto-save is enabled, the
move count is positive, divisible by the (positive) interval, and
different from the last saved count; a fired save records the current
count, so an immediate re-check at the same count never fires again. -/
theorem auto_save_policy (enabled : Bool) (interval moveCount last : Nat)
    (hpos : 0 < interval) :
    ((check_auto_save enabled interval moveCount last).2 = true ↔
      enabled = true ∧ 0 < moveCount ∧ moveCount % interval = 0 ∧
        moveCount ≠ last) ∧
    ((check_auto_save enabled interval moveCount last).2 = true →
      (check_auto_save enabled interval moveCount last).1 = moveCount) ∧
    ((check_auto_save enabled interval moveCount last).2 = true →
      (check_auto_save enabled interval moveCount
        (check_auto_save enabled interval moveCount last).1).2 = false) := by
  refine ⟨check_auto_save_fire_iff enabled interval moveCount last,
    check_auto_save_fst_of_fire enabled interval moveCount last, fun h => ?_⟩
  rw [check_auto_save_fst_of_fire enabled interval moveCount last h]
  have h2 : ¬ (check_auto_save enabled interval moveCount moveCount).2 = true := by
    rw [check_auto_save_fire_iff]
    simp
  exact Bool.eq_false_iff.mpr h2

/-- Witness for C10 with the spec scenario: interval 10, move count 10,
nothing saved yet. -/
theorem auto_save_policy_witness :
    0 < 10 ∧
    (((check_auto_save true 10 10 0).2 = true ↔
        true = true ∧ 0 < 10 ∧ 10 % 10 = 0 ∧ 10 ≠ 0) ∧
      ((check_auto_save true 10 10 0).2 = true →
        (check_auto_save true 10 10 0).1 = 10) ∧
      ((check_auto_save true 10 10 0).2 = true →
        (check_auto_save true 10 10 (check_auto_save true 10 10 0).1).2 =
          false)) :=
  ⟨by decide, auto_save_policy true 10 10 0 (by decide)⟩
